import Mathlib

/-!
Shallow embedding of the attendance calculation engine of the hi-fifty
repository: `src/utils/calculations.ts`, `src/utils/recurringPatterns.ts`
and `src/utils/constants.ts`, together with theorems checking the
natural-language specification against it.

Modelling choices:

* Calendar dates are `(year, month, day)` triples; the `yyyy-MM-dd`
  strings used as record keys in the source are in bijection with valid
  triples, so record lookup by date string is lookup by triple.
* The day of week is computed from a proleptic-Gregorian day count, with
  day 0 = 0001-01-01, a Monday; `dayOfWeek` agrees with JS `getDay`
  (0 = Sunday, ..., 6 = Saturday).
* All counts are natural numbers.  `Math.round` and `Math.ceil` are
  applied in the source only to non-negative ratios of small integers,
  where IEEE double arithmetic is exact enough to agree with the exact
  rational value; they are modelled as exact rational floor/ceiling.
* `new Date()` ("today") is an explicit parameter of every function that
  reads the clock, following the specification, which requires the
  current date to be treated as an input obtained once per call.
* `eachDayOfInterval` is modelled as the inclusive list of days from
  start to end, empty when the end precedes the start.
* For the recurring-pattern expander, dates are the day numbers
  themselves (a JS `Date` at local midnight corresponds to exactly one
  day number), which keeps the range iteration faithful while avoiding
  redundant calendar conversions.
-/

set_option maxRecDepth 8000

namespace RTO

/-- The `AttendanceType` union from `types.ts`. -/
inductive AttendanceType where
  | office
  | wfh
  | leave
  | holiday
  | weekend
deriving DecidableEq, Repr

/-- The `LeaveType` union from `types.ts` (`annual | sick | other`). -/
inductive LeaveKind where
  | annual
  | sick
  | other
deriving DecidableEq, Repr

/-- A calendar date, standing for a `yyyy-MM-dd` string / a JS `Date` at
local midnight. -/
structure Date where
  year : Nat
  month : Nat
  day : Nat
deriving DecidableEq, Repr

/-- An `AttendanceRecord` from `types.ts`; `leaveType` is optional. -/
structure AttendanceRecord where
  date : Date
  type : AttendanceType
  leaveType : Option LeaveKind
deriving DecidableEq, Repr

/-- A `Holiday` entry from `types.ts`. -/
structure Holiday where
  date : Date
  name : String
deriving DecidableEq, Repr

/-- The `australia` branch of one year of `HolidayData`: an optional
`national` list and per-state lists keyed by state name. -/
structure AustraliaData where
  national : Option (List Holiday)
  states : List (String × List Holiday)
deriving DecidableEq, Repr

/-- One year of `HolidayData`. -/
structure YearData where
  australia : Option AustraliaData
  bangalore : Option (List Holiday)
deriving DecidableEq, Repr

/-- `HolidayData`: a mapping from year to that year's holiday lists.
The JS object is keyed by `year.toString()`, which is injective on
years, so the key is modelled as the year itself. -/
abbrev HolidayData := List (Nat × YearData)

/-- The `location` union in `UserSettings`. -/
inductive Location where
  | australia
  | bangalore
deriving DecidableEq, Repr

/-- `UserSettings` from `types.ts`. -/
structure UserSettings where
  location : Location
  state : Option String
  targetPercentage : Nat
deriving DecidableEq, Repr

/-- Gregorian leap-year test. -/
def isLeapYear (y : Nat) : Bool :=
  (y % 4 == 0 && y % 100 != 0) || y % 400 == 0

/-- Number of days in a month of a given year. -/
def daysInMonth (y m : Nat) : Nat :=
  if m == 2 then (if isLeapYear y then 29 else 28)
  else if m == 4 || m == 6 || m == 9 || m == 11 then 30
  else 31

/-- Days of the months of year `y` strictly before month `m`. -/
def daysBeforeMonth (y m : Nat) : Nat :=
  ((List.range (m - 1)).map (fun i => daysInMonth y (i + 1))).sum

/-- Proleptic-Gregorian day count: 0001-01-01 is day 0. -/
def toDayNumber (d : Date) : Nat :=
  let p := d.year - 1
  365 * p + p / 4 - p / 100 + p / 400 + daysBeforeMonth d.year d.month + (d.day - 1)

/-- Day of week as JS `getDay`: 0 = Sunday, ..., 6 = Saturday.
0001-01-01 (day number 0) was a Monday. -/
def dayOfWeek (d : Date) : Nat := (toDayNumber d + 1) % 7

/-- date-fns `isWeekend`: Saturday or Sunday. -/
def isWeekend (d : Date) : Bool := dayOfWeek d == 0 || dayOfWeek d == 6

/-- Strict chronological order on dates (lexicographic on the triple,
which agrees with JS timestamp order for valid dates). -/
def dateLt (a b : Date) : Bool :=
  a.year < b.year || (a.year == b.year &&
    (a.month < b.month || (a.month == b.month && a.day < b.day)))

/-- Chronological non-strict order on dates. -/
def dateLe (a b : Date) : Bool := !dateLt b a

/-- The days of a month, as produced by
`eachDayOfInterval(startOfMonth, endOfMonth)`. -/
def monthDates (year month : Nat) : List Date :=
  (List.range (daysInMonth year month)).map (fun i => ⟨year, month, i + 1⟩)

/-- Last day of a month, as produced by `endOfMonth`. -/
def endOfMonthDate (year month : Nat) : Date :=
  ⟨year, month, daysInMonth year month⟩

/-- The `TARGET_PERCENTAGE` constant from `constants.ts`. -/
def TARGET_PERCENTAGE : Nat := 50

/-- JS `Math.round` on the non-negative ratios occurring in the source:
round half up, i.e. the floor of the value plus one half. -/
def jsRound (q : ℚ) : ℤ := ⌊q + 1 / 2⌋

/-- JS `Math.ceil`. -/
def jsCeil (q : ℚ) : ℤ := ⌈q⌉

/-- `getHolidaysForMonth` from `calculations.ts`: holidays of the given
month/year for the configured location (national plus state lists for
Australia, the flat list for Bangalore); empty when the year is absent. -/
def getHolidaysForMonth (holidays : HolidayData) (month year : Nat)
    (settings : UserSettings) : List Holiday :=
  match holidays.lookup year with
  | none => []
  | some yearData =>
    let holidaysList : List Holiday :=
      match settings.location with
      | .australia =>
        (match yearData.australia with
         | some au => au.national.getD []
         | none => []) ++
        (match settings.state, yearData.australia with
         | some st, some au => (au.states.lookup st).getD []
         | _, _ => [])
      | .bangalore => yearData.bangalore.getD []
    holidaysList.filter (fun h => h.date.month == month && h.date.year == year)

/-- `isHoliday` from `calculations.ts`. -/
def isHoliday (date : Date) (holidays : HolidayData)
    (settings : UserSettings) : Bool :=
  (getHolidaysForMonth holidays date.month date.year settings).any
    (fun h => h.date == date)

/-- The keep-condition of the counting loop in `getWorkingDaysInMonth`:
not a weekend, not a holiday, and no leave record on that date. -/
def countsAsWorkingDay (records : List AttendanceRecord) (day : Date)
    (holidays : HolidayData) (settings : UserSettings) : Bool :=
  !isWeekend day &&
  !isHoliday day holidays settings &&
  !(match records.find? (fun r => r.date == day) with
    | some r => r.type == AttendanceType.leave
    | none => false)

/-- The days counted by the loop in `getWorkingDaysInMonth`. -/
def workingDaysList (records : List AttendanceRecord) (month year : Nat)
    (holidays : HolidayData) (settings : UserSettings) : List Date :=
  (monthDates year month).filter
    (fun day => countsAsWorkingDay records day holidays settings)

/-- `getWorkingDaysInMonth` from `calculations.ts`. -/
def getWorkingDaysInMonth (records : List AttendanceRecord) (month year : Nat)
    (holidays : HolidayData) (settings : UserSettings) : Nat :=
  (workingDaysList records month year holidays settings).length

/-- The days counted by the loop in `getWorkingDaysAvailableSoFar`:
the month's days up to `min(today, endOfMonth)` that pass the same
three checks. -/
def availableDaysList (records : List AttendanceRecord) (month year : Nat)
    (holidays : HolidayData) (settings : UserSettings) (today : Date) :
    List Date :=
  let e := if dateLt (endOfMonthDate year month) today
           then endOfMonthDate year month else today
  (monthDates year month).filter
    (fun day => dateLe day e && countsAsWorkingDay records day holidays settings)

/-- `getWorkingDaysAvailableSoFar` from `calculations.ts`, with the
current date passed explicitly. -/
def getWorkingDaysAvailableSoFar (records : List AttendanceRecord)
    (month year : Nat) (holidays : HolidayData) (settings : UserSettings)
    (today : Date) : Nat :=
  (availableDaysList records month year holidays settings today).length

/-- `MonthlyReport` from `types.ts`. -/
structure MonthlyReport where
  month : Nat
  year : Nat
  totalWorkingDays : Nat
  workingDaysAvailableSoFar : Nat
  daysInOffice : Nat
  daysWFH : Nat
  daysLeave : Nat
  attendancePercentage : ℤ
  daysNeededForTarget : ℤ
deriving DecidableEq, Repr

/-- `calculateMonthlyReport` from `calculations.ts`, with the current
date passed explicitly. -/
def calculateMonthlyReport (records : List AttendanceRecord)
    (month year : Nat) (holidays : HolidayData) (settings : UserSettings)
    (today : Date) : MonthlyReport :=
  let totalWorkingDays := getWorkingDaysInMonth records month year holidays settings
  let workingDaysAvailableSoFar :=
    getWorkingDaysAvailableSoFar records month year holidays settings today
  let monthRecords := records.filter (fun r =>
    r.date.month == month && r.date.year == year &&
    (r.type == AttendanceType.office || r.type == AttendanceType.wfh ||
      r.type == AttendanceType.leave))
  let daysInOffice :=
    (monthRecords.filter (fun r => r.type == AttendanceType.office)).length
  let daysWFH :=
    (monthRecords.filter (fun r => r.type == AttendanceType.wfh)).length
  let daysLeave :=
    (monthRecords.filter (fun r => r.type == AttendanceType.leave)).length
  let attendancePercentage : ℤ :=
    if workingDaysAvailableSoFar > 0 then
      jsRound ((daysInOffice : ℚ) / (workingDaysAvailableSoFar : ℚ) * 100)
    else 0
  let targetDays : ℤ :=
    jsCeil (((totalWorkingDays * TARGET_PERCENTAGE : Nat) : ℚ) / 100)
  let daysNeededForTarget : ℤ := max 0 (targetDays - (daysInOffice : ℤ))
  ⟨month, year, totalWorkingDays, workingDaysAvailableSoFar, daysInOffice,
    daysWFH, daysLeave, attendancePercentage, daysNeededForTarget⟩

/-- `getDaysNeededForCompliance` from `calculations.ts` (the default
value of `targetPercentage` is `TARGET_PERCENTAGE`, supplied by the
caller here). -/
def getDaysNeededForCompliance (currentOfficeDays remainingWorkingDays
    totalWorkingDays targetPercentage : Nat) : ℤ :=
  let targetDays : ℤ :=
    jsCeil (((totalWorkingDays * targetPercentage : Nat) : ℚ) / 100)
  let shortfall : ℤ := max 0 (targetDays - (currentOfficeDays : ℤ))
  if shortfall > (remainingWorkingDays : ℤ) then shortfall else shortfall

/-- JS `getDay` on a day number (same day count as `toDayNumber`, whose
day 0 = 0001-01-01 was a Monday): 0 = Sunday, ..., 6 = Saturday. -/
def getDay (day : Nat) : Nat := (day + 1) % 7

/-- `RecurringPattern` from `types.ts`, with its `yyyy-MM-dd` bounds as
day numbers. -/
structure RecurringPattern where
  id : String
  name : String
  daysOfWeek : List Nat
  attendanceType : AttendanceType
  startDate : Nat
  endDate : Option Nat
  leaveType : Option LeaveKind
  enabled : Bool
deriving DecidableEq, Repr

/-- A record generated by the pattern expander, with its date as a day
number. -/
structure PatternRecord where
  date : Nat
  type : AttendanceType
  leaveType : Option LeaveKind
deriving DecidableEq, Repr

/-- The matching test inside `applyRecurringPatterns`: the pattern is
enabled, the day's weekday is configured, and the day is not before
`startDate` nor after `endDate` (when present). -/
def patternMatches (p : RecurringPattern) (day : Nat) : Bool :=
  p.enabled && p.daysOfWeek.contains (getDay day) &&
  !(decide (day < p.startDate)) &&
  !(match p.endDate with
    | some e => decide (e < day)
    | none => false)

/-- date-fns `eachDayOfInterval` on day numbers: the inclusive range of
days, empty when the end precedes the start. -/
def eachDayOfInterval (s e : Nat) : List Nat := List.range' s (e + 1 - s)

/-- `applyRecurringPatterns` from `recurringPatterns.ts`: for each day of
the range, the first enabled matching pattern (in input order), if any,
contributes one record; `leaveType` is copied through only for leave
patterns. -/
def applyRecurringPatterns (patterns : List RecurringPattern)
    (startDate endDate : Nat) : List PatternRecord :=
  (eachDayOfInterval startDate endDate).filterMap (fun day =>
    match (patterns.filter (fun p => patternMatches p day)).head? with
    | some p => some ⟨day, p.attendanceType,
        if p.attendanceType == AttendanceType.leave then p.leaveType else none⟩
    | none => none)

/-- The mock holiday calendar used by the source test-suite: 2024 with
Australian national holidays on 1 Jan, 26 Jan and 25 Dec, an NSW
holiday on 10 Jun, and Bangalore holidays on 26 Jan and 15 Aug. -/
def mockHolidays : HolidayData :=
  [(2024, ⟨some ⟨some [⟨⟨2024, 1, 1⟩, "New Years Day"⟩,
                       ⟨⟨2024, 1, 26⟩, "Australia Day"⟩,
                       ⟨⟨2024, 12, 25⟩, "Christmas Day"⟩],
                 [("nsw", [⟨⟨2024, 6, 10⟩, "Kings Birthday"⟩])]⟩,
           some [⟨⟨2024, 1, 26⟩, "Republic Day"⟩,
                 ⟨⟨2024, 8, 15⟩, "Independence Day"⟩]⟩)]

/-- The default settings used by the source test-suite. -/
def defaultSettings : UserSettings := ⟨Location.australia, some "nsw", 50⟩

/-- Calibration of the day-of-week model: 1 January 2024 was a Monday,
6 and 7 January 2024 a Saturday and a Sunday, 29 February 2024 and
1 January 1970 Thursdays. -/
theorem dayOfWeek_calibration :
    dayOfWeek ⟨2024, 1, 1⟩ = 1 ∧ dayOfWeek ⟨2024, 1, 6⟩ = 6 ∧
    dayOfWeek ⟨2024, 1, 7⟩ = 0 ∧ dayOfWeek ⟨2024, 2, 29⟩ = 4 ∧
    dayOfWeek ⟨1970, 1, 1⟩ = 4 := by decide

/-- Sanity checks mirroring the source test-suite: 21 working days in
January 2024 for Australia/NSW, 22 for Bangalore, 23 with no holidays,
and 19 with two extra leave records. -/
theorem workingDays_testsuite_checks :
    getWorkingDaysInMonth [] 1 2024 mockHolidays defaultSettings = 21 ∧
    getWorkingDaysInMonth [] 1 2024 mockHolidays ⟨Location.bangalore, none, 50⟩ = 22 ∧
    getWorkingDaysInMonth [] 1 2024 [] defaultSettings = 23 ∧
    getWorkingDaysInMonth [⟨⟨2024, 1, 2⟩, AttendanceType.leave, some LeaveKind.annual⟩,
      ⟨⟨2024, 1, 3⟩, AttendanceType.leave, some LeaveKind.annual⟩] 1 2024
      mockHolidays defaultSettings = 19 := by decide

/-- Sanity checks mirroring the source test-suite for the compliance
shortfall helper. -/
theorem compliance_testsuite_checks :
    getDaysNeededForCompliance 5 10 20 50 = 5 ∧
    getDaysNeededForCompliance 15 10 20 50 = 0 ∧
    getDaysNeededForCompliance 5 3 20 50 = 5 := by
  refine ⟨?_, ?_, ?_⟩ <;> with_unfolding_all rfl

/-- Helper: the rounded ratio is non-negative when the ratio is. -/
theorem jsRound_nonneg (q : ℚ) (h : 0 ≤ q) : 0 ≤ jsRound q := by
  unfold jsRound
  rw [Int.le_floor]
  push_cast
  linarith

/-- Helper: the rounded ratio is at most 100 when the ratio is. -/
theorem jsRound_le_hundred (q : ℚ) (h : q ≤ 100) : jsRound q ≤ 100 := by
  unfold jsRound
  have hlt : ⌊q + 1 / 2⌋ < 101 := by
    rw [Int.floor_lt]
    push_cast
    linarith
  omega

/-- Helper: the rounded percentage is at most 100 when the numerator is
at most the positive denominator. -/
theorem pct_le_hundred (a b : Nat) (h : a ≤ b) (hpos : 0 < b) :
    jsRound ((a : ℚ) / (b : ℚ) * 100) ≤ 100 := by
  apply jsRound_le_hundred
  have hb : (0 : ℚ) < (b : ℚ) := by exact_mod_cast hpos
  have ha : (a : ℚ) ≤ (b : ℚ) := by exact_mod_cast h
  rw [div_mul_eq_mul_div, div_le_iff₀ hb]
  nlinarith

/-- Helper: the half-up rounding of `a / b * 100` as a natural-number
division, for a positive denominator. -/
theorem jsRound_ratio_eq_natDiv (a b : Nat) (hb : 0 < b) :
    jsRound ((a : ℚ) / (b : ℚ) * 100) = ((200 * a + b) / (2 * b) : ℕ) := by
  unfold jsRound
  have hbq : ((b : ℚ)) ≠ 0 := by
    exact_mod_cast Nat.pos_iff_ne_zero.mp hb
  have key : (a : ℚ) / (b : ℚ) * 100 + 1 / 2 =
      ((200 * a + b : ℕ) : ℚ) / ((2 * b : ℕ) : ℚ) := by
    push_cast
    field_simp
    ring
  rw [key, Rat.floor_natCast_div_natCast]
  exact (Int.natCast_div _ _).symm

/-- C1 counterexample input: settings whose configured target percentage
is 100 rather than the default 50. -/
def settingsHundred : UserSettings := ⟨Location.australia, some "nsw", 100⟩

/-- C1 counterexample report: January 2024, no records, empty calendar,
evaluated at the end of the month. -/
def reportHundred : MonthlyReport :=
  calculateMonthlyReport [] 1 2024 [] settingsHundred ⟨2024, 1, 31⟩

/-- C1 (counterexample): with `targetPercentage = 100` configured in the
settings, the report's `daysNeededForTarget` does not satisfy
`max(0, ceil(totalWorkingDays * settings.targetPercentage / 100) -
daysInOffice)`: the code computes 12 (from the constant 50), the claimed
formula gives 23. -/
theorem C1_counterexample :
    ¬ (reportHundred.daysNeededForTarget =
        max 0 (jsCeil (((reportHundred.totalWorkingDays *
            settingsHundred.targetPercentage : Nat) : ℚ) / 100) -
          (reportHundred.daysInOffice : ℤ))) := by
  with_unfolding_all decide

/-- C1 (amended): `daysNeededForTarget` equals
`max(0, ceil(totalWorkingDays * TARGET_PERCENTAGE / 100) - daysInOffice)`
with the module constant `TARGET_PERCENTAGE = 50`, and the whole report
is independent of the `targetPercentage` stored in `UserSettings`. -/
theorem C1_target_uses_constant (records : List AttendanceRecord)
    (month year : Nat) (holidays : HolidayData) (loc : Location)
    (st : Option String) (p1 p2 : Nat) (today : Date) :
    (calculateMonthlyReport records month year holidays ⟨loc, st, p1⟩ today).daysNeededForTarget =
      max 0 (jsCeil ((((calculateMonthlyReport records month year holidays ⟨loc, st, p1⟩ today).totalWorkingDays
          * TARGET_PERCENTAGE : Nat) : ℚ) / 100) -
        ((calculateMonthlyReport records month year holidays ⟨loc, st, p1⟩ today).daysInOffice : ℤ)) ∧
    calculateMonthlyReport records month year holidays ⟨loc, st, p1⟩ today =
      calculateMonthlyReport records month year holidays ⟨loc, st, p2⟩ today :=
  ⟨rfl, rfl⟩

/-- C2 counterexample input: two `office` records on Saturdays of
January 2024, evaluated on 1 January with an empty holiday calendar, so
only one working day has elapsed while two office records are tallied. -/
def reportWeekendOffice : MonthlyReport :=
  calculateMonthlyReport
    [⟨⟨2024, 1, 6⟩, AttendanceType.office, none⟩,
     ⟨⟨2024, 1, 13⟩, AttendanceType.office, none⟩] 1 2024 [] defaultSettings
    ⟨2024, 1, 1⟩

/-- C2 (counterexample): `attendancePercentage` is not always at most
100: office records dated on weekends count toward `daysInOffice` but
not toward `workingDaysAvailableSoFar`, producing 200 here. -/
theorem C2_counterexample : 100 < reportWeekendOffice.attendancePercentage := by
  with_unfolding_all decide

/-- C2 (amended): `attendancePercentage` is always non-negative, equals
0 whenever `workingDaysAvailableSoFar = 0` regardless of `daysInOffice`,
and is at most 100 whenever `daysInOffice` does not exceed
`workingDaysAvailableSoFar`; it can exceed 100 otherwise (see the
counterexample). -/
theorem C2_percentage_bounds (records : List AttendanceRecord)
    (month year : Nat) (holidays : HolidayData) (settings : UserSettings)
    (today : Date) (rpt : MonthlyReport)
    (hrpt : rpt = calculateMonthlyReport records month year holidays settings today) :
    0 ≤ rpt.attendancePercentage ∧
    (rpt.workingDaysAvailableSoFar = 0 → rpt.attendancePercentage = 0) ∧
    (rpt.daysInOffice ≤ rpt.workingDaysAvailableSoFar →
      rpt.attendancePercentage ≤ 100) := by
  subst hrpt
  simp only [calculateMonthlyReport]
  refine ⟨?_, ?_, ?_⟩
  · split
    · apply jsRound_nonneg
      positivity
    · exact le_refl 0
  · intro h
    rw [h]
    simp
  · intro h
    split
    · next hpos => exact pct_le_hundred _ _ h hpos
    · simp

/-- C2 witness: on 1 January 2024 (a holiday) no working day has
elapsed, and the percentage is 0. -/
theorem C2_witness :
    (calculateMonthlyReport [] 1 2024 mockHolidays defaultSettings
      ⟨2024, 1, 1⟩).attendancePercentage = 0 :=
  (C2_percentage_bounds [] 1 2024 mockHolidays defaultSettings ⟨2024, 1, 1⟩
    _ rfl).2.1 (by decide)

/-- C3: when `workingDaysAvailableSoFar > 0` the percentage is the
half-up rounding of `daysInOffice / workingDaysAvailableSoFar * 100`
(equivalently, an exact natural-number division, so no division error,
NaN or Infinity can arise), and when the denominator is 0 the
percentage is 0; it is non-negative in all cases. -/
theorem C3_percentage_rounding (records : List AttendanceRecord)
    (month year : Nat) (holidays : HolidayData) (settings : UserSettings)
    (today : Date) (rpt : MonthlyReport)
    (hrpt : rpt = calculateMonthlyReport records month year holidays settings today) :
    (0 < rpt.workingDaysAvailableSoFar →
      rpt.attendancePercentage =
        jsRound ((rpt.daysInOffice : ℚ) / (rpt.workingDaysAvailableSoFar : ℚ) * 100) ∧
      rpt.attendancePercentage =
        ((200 * rpt.daysInOffice + rpt.workingDaysAvailableSoFar) /
          (2 * rpt.workingDaysAvailableSoFar) : ℕ)) ∧
    (rpt.workingDaysAvailableSoFar = 0 → rpt.attendancePercentage = 0) ∧
    0 ≤ rpt.attendancePercentage := by
  subst hrpt
  simp only [calculateMonthlyReport]
  refine ⟨?_, ?_, ?_⟩
  · intro hpos
    rw [if_pos hpos]
    exact ⟨rfl, jsRound_ratio_eq_natDiv _ _ hpos⟩
  · intro h
    rw [h]
    simp
  · split
    · apply jsRound_nonneg
      positivity
    · exact le_refl 0

/-- C3 witness: one office record out of two elapsed working days gives
the half-up rounding of 50, computed with a positive denominator. -/
theorem C3_witness :
    (calculateMonthlyReport [⟨⟨2024, 1, 2⟩, AttendanceType.office, none⟩] 1 2024
        mockHolidays defaultSettings ⟨2024, 1, 3⟩).attendancePercentage =
      ((200 * (calculateMonthlyReport [⟨⟨2024, 1, 2⟩, AttendanceType.office, none⟩] 1 2024
          mockHolidays defaultSettings ⟨2024, 1, 3⟩).daysInOffice +
        (calculateMonthlyReport [⟨⟨2024, 1, 2⟩, AttendanceType.office, none⟩] 1 2024
          mockHolidays defaultSettings ⟨2024, 1, 3⟩).workingDaysAvailableSoFar) /
        (2 * (calculateMonthlyReport [⟨⟨2024, 1, 2⟩, AttendanceType.office, none⟩] 1 2024
          mockHolidays defaultSettings ⟨2024, 1, 3⟩).workingDaysAvailableSoFar) : ℕ) :=
  ((C3_percentage_rounding [⟨⟨2024, 1, 2⟩, AttendanceType.office, none⟩] 1 2024
    mockHolidays defaultSettings ⟨2024, 1, 3⟩ _ rfl).1 (by decide)).2

/-- C8: when the holiday calendar has no entry for the requested year,
`getHolidaysForMonth` returns the empty list (and, the embedding being
total, no input can raise an error). -/
theorem C8_missing_year_empty (holidays : HolidayData) (month year : Nat)
    (settings : UserSettings) (h : holidays.lookup year = none) :
    getHolidaysForMonth holidays month year settings = [] := by
  unfold getHolidaysForMonth
  rw [h]

/-- C8 witness: the mock calendar has no entry for 2023. -/
theorem C8_witness :
    getHolidaysForMonth mockHolidays 1 2023 defaultSettings = [] :=
  C8_missing_year_empty mockHolidays 1 2023 defaultSettings (by decide)

/-- C9: `getDaysNeededForCompliance` returns the same value for any two
values of `remainingWorkingDays`, and that value is
`max(0, ceil(totalWorkingDays * targetPercentage / 100) -
currentOfficeDays)`: both branches of the unreachable-target check
return the same shortfall. -/
theorem C9_remaining_days_no_effect (c r1 r2 t p : Nat) :
    getDaysNeededForCompliance c r1 t p = getDaysNeededForCompliance c r2 t p ∧
    getDaysNeededForCompliance c r1 t p =
      max 0 (jsCeil (((t * p : Nat) : ℚ) / 100) - (c : ℤ)) := by
  unfold getDaysNeededForCompliance
  constructor
  · simp only [ite_self]
  · simp only [ite_self]

/-- Helper: looking up a date in a record list is unchanged by inserting
a record with a different date. -/
theorem find?_insert_ne (rec : AttendanceRecord) (l1 l2 : List AttendanceRecord)
    (day : Date) (hne : rec.date ≠ day) :
    (l1 ++ rec :: l2).find? (fun r => r.date == day) =
      (l1 ++ l2).find? (fun r => r.date == day) := by
  induction l1 with
  | nil =>
    rw [List.nil_append, List.nil_append,
      @List.find?_cons_of_neg _ (fun r => r.date == day) rec (l2)
        (by simpa using hne)]
  | cons a l ih =>
    rw [List.cons_append, List.cons_append]
    by_cases ha : (a.date == day) = true
    · rw [@List.find?_cons_of_pos _ (fun r => r.date == day) a (l ++ rec :: l2) ha,
        @List.find?_cons_of_pos _ (fun r => r.date == day) a (l ++ l2) ha]
    · rw [@List.find?_cons_of_neg _ (fun r => r.date == day) a (l ++ rec :: l2)
          (by simpa using ha),
        @List.find?_cons_of_neg _ (fun r => r.date == day) a (l ++ l2)
          (by simpa using ha), ih]

/-- Helper: the keep-condition of the working-day loops is unchanged by
inserting a record dated on a weekend. -/
theorem countsAsWorkingDay_insert_weekend (rec : AttendanceRecord)
    (l1 l2 : List AttendanceRecord) (day : Date) (holidays : HolidayData)
    (settings : UserSettings) (hw : isWeekend rec.date = true) :
    countsAsWorkingDay (l1 ++ rec :: l2) day holidays settings =
      countsAsWorkingDay (l1 ++ l2) day holidays settings := by
  by_cases hd : isWeekend day = true
  · unfold countsAsWorkingDay
    rw [hd]
    rfl
  · have hne : rec.date ≠ day := by
      intro h
      exact hd (h ▸ hw)
    unfold countsAsWorkingDay
    rw [find?_insert_ne rec l1 l2 day hne]

/-- Helper: the counted working-day list is unchanged by inserting a
record dated on a weekend. -/
theorem workingDaysList_insert_weekend (rec : AttendanceRecord)
    (l1 l2 : List AttendanceRecord) (month year : Nat)
    (holidays : HolidayData) (settings : UserSettings)
    (hw : isWeekend rec.date = true) :
    workingDaysList (l1 ++ rec :: l2) month year holidays settings =
      workingDaysList (l1 ++ l2) month year holidays settings := by
  unfold workingDaysList
  exact List.filter_congr (fun day _ =>
    countsAsWorkingDay_insert_weekend rec l1 l2 day holidays settings hw)

/-- C4: weekend days are never counted by `getWorkingDaysInMonth` (every
counted day fails the weekend test), and inserting a record dated on a
Saturday or Sunday, of any type, anywhere in the record list leaves the
count unchanged. -/
theorem C4_weekend_exclusion_unoverridable (records l1 l2 : List AttendanceRecord)
    (rec : AttendanceRecord) (month year : Nat) (holidays : HolidayData)
    (settings : UserSettings) (hw : isWeekend rec.date = true) :
    getWorkingDaysInMonth (l1 ++ rec :: l2) month year holidays settings =
      getWorkingDaysInMonth (l1 ++ l2) month year holidays settings ∧
    ∀ day ∈ workingDaysList records month year holidays settings,
      isWeekend day = false := by
  constructor
  · unfold getWorkingDaysInMonth
    rw [workingDaysList_insert_weekend rec l1 l2 month year holidays settings hw]
  · intro day hday
    have hkeep := List.of_mem_filter hday
    unfold countsAsWorkingDay at hkeep
    simp only [Bool.and_eq_true, Bool.not_eq_true'] at hkeep
    exact hkeep.1.1

/-- C4 witness: an office record on Saturday 6 January 2024 does not
change the January 2024 working-day count, and no counted day of that
month is a weekend. -/
theorem C4_witness :
    getWorkingDaysInMonth ([] ++ ⟨⟨2024, 1, 6⟩, AttendanceType.office, none⟩ :: [])
        1 2024 mockHolidays defaultSettings =
      getWorkingDaysInMonth ([] ++ []) 1 2024 mockHolidays defaultSettings ∧
    ∀ day ∈ workingDaysList [] 1 2024 mockHolidays defaultSettings,
      isWeekend day = false :=
  C4_weekend_exclusion_unoverridable [] [] []
    ⟨⟨2024, 1, 6⟩, AttendanceType.office, none⟩ 1 2024 mockHolidays
    defaultSettings (by decide)

/-- Helper: a member of `monthDates` carries the month's year and month. -/
theorem monthDates_year_month (year month : Nat) (d : Date)
    (hd : d ∈ monthDates year month) : d.year = year ∧ d.month = month := by
  unfold monthDates at hd
  obtain ⟨i, hi, heq⟩ := List.mem_map.mp hd
  rw [← heq]
  exact ⟨rfl, rfl⟩

/-- C7: in January 2024 with Australia/NSW settings, if exactly
2024-01-01 and 2024-01-26 are holidays in that month and the records
carry no leave record dated in that month, the working-day count is 21
(31 calendar days, minus 8 weekend days, minus the 2 holidays). -/
theorem C7_january_2024_nsw (records : List AttendanceRecord)
    (holidays : HolidayData) (tp : Nat)
    (hhol : ∀ d ∈ monthDates 2024 1,
      isHoliday d holidays ⟨Location.australia, some "nsw", tp⟩ =
        (d == ⟨2024, 1, 1⟩ || d == ⟨2024, 1, 26⟩))
    (hleave : ∀ r ∈ records, r.date.year = 2024 → r.date.month = 1 →
      r.type ≠ AttendanceType.leave) :
    getWorkingDaysInMonth records 1 2024 holidays
      ⟨Location.australia, some "nsw", tp⟩ = 21 := by
  unfold getWorkingDaysInMonth workingDaysList
  have hcong : (monthDates 2024 1).filter
      (fun day => countsAsWorkingDay records day holidays
        ⟨Location.australia, some "nsw", tp⟩) =
      (monthDates 2024 1).filter
      (fun day => !isWeekend day && !(day == ⟨2024, 1, 1⟩ || day == ⟨2024, 1, 26⟩)) := by
    apply List.filter_congr
    intro day hday
    unfold countsAsWorkingDay
    rw [hhol day hday]
    have hfree : (match records.find? (fun r => r.date == day) with
        | some r => r.type == AttendanceType.leave
        | none => false) = false := by
      cases hfind : records.find? (fun r => r.date == day) with
      | none => rfl
      | some r =>
        have hmem := List.mem_of_find?_eq_some hfind
        have hp := List.find?_some hfind
        have hdate : r.date = day := by simpa using hp
        obtain ⟨hy, hm⟩ := monthDates_year_month 2024 1 day hday
        have hr := hleave r hmem (by rw [hdate]; exact hy) (by rw [hdate]; exact hm)
        simpa using hr
    rw [hfree]
    simp
  rw [hcong]
  decide

/-- C7 witness: the mock calendar from the source test-suite has exactly
those two January 2024 holidays for Australia/NSW, and the empty record
list has no leave records. -/
theorem C7_witness :
    getWorkingDaysInMonth [] 1 2024 mockHolidays
      ⟨Location.australia, some "nsw", 50⟩ = 21 :=
  C7_january_2024_nsw [] mockHolidays 50 (by decide) (by simp)

/-- Helper: the head of a filtered list is the first element satisfying
the predicate. -/
theorem head?_filter_eq_find? {α : Type} (p : α → Bool) (l : List α) :
    (l.filter p).head? = l.find? p := by
  induction l with
  | nil => rfl
  | cons a l ih =>
    by_cases ha : p a = true
    · rw [List.filter_cons_of_pos ha, @List.find?_cons_of_pos _ p a l ha]
      rfl
    · rw [List.filter_cons_of_neg (by simpa using ha),
        @List.find?_cons_of_neg _ p a l (by simpa using ha), ih]

/-- Helper: membership in the expander's output, characterised: the date
is a day of the range, and the record's fields come from the first
pattern of the input list matching that date. -/
theorem mem_applyRecurringPatterns (patterns : List RecurringPattern)
    (s e : Nat) (rec : PatternRecord)
    (h : rec ∈ applyRecurringPatterns patterns s e) :
    rec.date ∈ eachDayOfInterval s e ∧
    ∃ p, patterns.find? (fun q => patternMatches q rec.date) = some p ∧
      rec.type = p.attendanceType ∧
      rec.leaveType =
        (if p.attendanceType == AttendanceType.leave then p.leaveType else none) := by
  unfold applyRecurringPatterns at h
  obtain ⟨day, hday, hf⟩ := List.mem_filterMap.mp h
  cases hh : (patterns.filter (fun p => patternMatches p day)).head? with
  | none =>
    rw [hh] at hf
    exact absurd hf (by simp)
  | some p =>
    rw [hh] at hf
    have hrec : rec = ⟨day, p.attendanceType,
        if p.attendanceType == AttendanceType.leave then p.leaveType else none⟩ := by
      simpa using hf.symm
    subst hrec
    refine ⟨hday, p, ?_, rfl, rfl⟩
    rw [← head?_filter_eq_find?]
    exact hh

/-- Helper: the dates of the expander's output form a sublist of the
iterated day range. -/
theorem applyRecurringPatterns_dates_sublist (patterns : List RecurringPattern)
    (days : List Nat) :
    ((days.filterMap (fun day =>
      match (patterns.filter (fun p => patternMatches p day)).head? with
      | some p => some (⟨day, p.attendanceType,
          if p.attendanceType == AttendanceType.leave then p.leaveType else none⟩ :
            PatternRecord)
      | none => none)).map PatternRecord.date).Sublist days := by
  induction days with
  | nil => simp
  | cons d ds ih =>
    rw [List.filterMap_cons]
    cases hh : (patterns.filter (fun p => patternMatches p d)).head? with
    | none => exact ih.cons d
    | some p =>
      rw [List.map_cons]
      exact ih.cons₂ d

/-- C5: the expander produces at most one record per date (the dates of
its output are pairwise distinct), and each produced record takes its
`attendanceType` and `leaveType` from the first matching pattern in the
input list's iteration order (`List.find?` returns the first match). -/
theorem C5_first_matching_pattern_wins (patterns : List RecurringPattern)
    (s e : Nat) :
    ((applyRecurringPatterns patterns s e).map PatternRecord.date).Nodup ∧
    ∀ rec ∈ applyRecurringPatterns patterns s e,
      ∃ p, patterns.find? (fun q => patternMatches q rec.date) = some p ∧
        rec.type = p.attendanceType ∧
        rec.leaveType =
          (if p.attendanceType == AttendanceType.leave then p.leaveType else none) := by
  constructor
  · have hsub := applyRecurringPatterns_dates_sublist patterns (eachDayOfInterval s e)
    have hnd : (eachDayOfInterval s e).Nodup := by
      unfold eachDayOfInterval
      exact List.nodup_range' s (e + 1 - s)
    exact hnd.sublist hsub
  · intro rec hrec
    exact (mem_applyRecurringPatterns patterns s e rec hrec).2

/-- C5 witness: with two enabled overlapping patterns on Mondays, the
single record produced over a one-day range carries the first pattern's
type. -/
theorem C5_witness :
    ∃ p, ([⟨"p1", "mon office", [1], AttendanceType.office, 0, none, none, true⟩,
           ⟨"p2", "mon wfh", [1], AttendanceType.wfh, 0, none, none, true⟩] :
            List RecurringPattern).find?
        (fun q => patternMatches q (⟨0, AttendanceType.office, none⟩ : PatternRecord).date) = some p ∧
      (⟨0, AttendanceType.office, none⟩ : PatternRecord).type = p.attendanceType ∧
      (⟨0, AttendanceType.office, none⟩ : PatternRecord).leaveType =
        (if p.attendanceType == AttendanceType.leave then p.leaveType else none) :=
  (C5_first_matching_pattern_wins
    [⟨"p1", "mon office", [1], AttendanceType.office, 0, none, none, true⟩,
     ⟨"p2", "mon wfh", [1], AttendanceType.wfh, 0, none, none, true⟩] 0 0).2
    ⟨0, AttendanceType.office, none⟩ (by decide)

/-- C6: every produced record's date lies inside the requested inclusive
range, and some pattern of the list is enabled, contains that date's
weekday, starts no later than the date, and (when it has an end date)
ends no earlier than the date. -/
theorem C6_output_within_range_and_pattern (patterns : List RecurringPattern)
    (s e : Nat) :
    ∀ rec ∈ applyRecurringPatterns patterns s e,
      s ≤ rec.date ∧ rec.date ≤ e ∧
      ∃ p ∈ patterns, p.enabled = true ∧ getDay rec.date ∈ p.daysOfWeek ∧
        p.startDate ≤ rec.date ∧ ∀ d, p.endDate = some d → rec.date ≤ d := by
  intro rec hrec
  obtain ⟨hmem, p, hfind, -, -⟩ := mem_applyRecurringPatterns patterns s e rec hrec
  have hrange : s ≤ rec.date ∧ rec.date ≤ e := by
    unfold eachDayOfInterval at hmem
    obtain ⟨i, hi, heq⟩ := List.mem_range'.mp hmem
    omega
  refine ⟨hrange.1, hrange.2, p, List.mem_of_find?_eq_some hfind, ?_⟩
  have hp := List.find?_some hfind
  unfold patternMatches at hp
  simp only [Bool.and_eq_true, Bool.not_eq_true', decide_eq_false_iff_not] at hp
  obtain ⟨⟨⟨hen, hdow⟩, hstart⟩, hend⟩ := hp
  refine ⟨hen, ?_, by omega, ?_⟩
  · simpa [List.contains] using hdow
  · intro d hd
    rw [hd] at hend
    simp only [decide_eq_false_iff_not] at hend
    omega

/-- C6 witness: a pattern bounded to days 10 through 12, matching
Thursdays, generates a record on day 10 inside the requested range. -/
theorem C6_witness :
    0 ≤ (⟨10, AttendanceType.wfh, none⟩ : PatternRecord).date ∧
    (⟨10, AttendanceType.wfh, none⟩ : PatternRecord).date ≤ 20 ∧
    ∃ p ∈ ([⟨"p", "thu wfh", [4], AttendanceType.wfh, 10, some 12, none, true⟩] :
        List RecurringPattern), p.enabled = true ∧
      getDay (⟨10, AttendanceType.wfh, none⟩ : PatternRecord).date ∈ p.daysOfWeek ∧
      p.startDate ≤ (⟨10, AttendanceType.wfh, none⟩ : PatternRecord).date ∧
      ∀ d, p.endDate = some d →
        (⟨10, AttendanceType.wfh, none⟩ : PatternRecord).date ≤ d :=
  C6_output_within_range_and_pattern
    [⟨"p", "thu wfh", [4], AttendanceType.wfh, 10, some 12, none, true⟩] 0 20
    ⟨10, AttendanceType.wfh, none⟩ (by decide)

/-- Helper: filtering the month's office/wfh/leave records down to one
of those three types is the same as filtering by month, year and that
type directly. -/
theorem monthRecords_type_filter (records : List AttendanceRecord)
    (month year : Nat) (t : AttendanceType)
    (ht : t = AttendanceType.office ∨ t = AttendanceType.wfh ∨
      t = AttendanceType.leave) :
    ((records.filter (fun r =>
        r.date.month == month && r.date.year == year &&
        (r.type == AttendanceType.office || r.type == AttendanceType.wfh ||
          r.type == AttendanceType.leave))).filter (fun r => r.type == t)) =
      records.filter (fun r =>
        r.date.month == month && r.date.year == year && r.type == t) := by
  rw [List.filter_filter]
  apply List.filter_congr
  intro r _
  rcases ht with rfl | rfl | rfl <;> cases hr : r.type <;>
    cases hm : (r.date.month == month) <;>
    cases hy : (r.date.year == year) <;> rfl

/-- C10: the office/WFH/leave tallies of the monthly report count every
record of that type dated in the requested month and year, with no
working-day restriction; in particular an office record dated on a
weekend increments `daysInOffice` while leaving `totalWorkingDays`
unchanged. -/
theorem C10_tallies_ignore_working_day_status (records : List AttendanceRecord)
    (month year : Nat) (holidays : HolidayData) (settings : UserSettings)
    (today : Date) (rpt : MonthlyReport)
    (hrpt : rpt = calculateMonthlyReport records month year holidays settings today) :
    rpt.daysInOffice = (records.filter (fun r =>
        r.date.month == month && r.date.year == year &&
        r.type == AttendanceType.office)).length ∧
    rpt.daysWFH = (records.filter (fun r =>
        r.date.month == month && r.date.year == year &&
        r.type == AttendanceType.wfh)).length ∧
    rpt.daysLeave = (records.filter (fun r =>
        r.date.month == month && r.date.year == year &&
        r.type == AttendanceType.leave)).length ∧
    ∀ rec : AttendanceRecord, rec.date.month = month → rec.date.year = year →
      rec.type = AttendanceType.office → isWeekend rec.date = true →
      (calculateMonthlyReport (rec :: records) month year holidays settings
          today).daysInOffice = rpt.daysInOffice + 1 ∧
      (calculateMonthlyReport (rec :: records) month year holidays settings
          today).totalWorkingDays = rpt.totalWorkingDays := by
  subst hrpt
  simp only [calculateMonthlyReport]
  refine ⟨?_, ?_, ?_, ?_⟩
  · rw [monthRecords_type_filter records month year AttendanceType.office
      (Or.inl rfl)]
  · rw [monthRecords_type_filter records month year AttendanceType.wfh
      (Or.inr (Or.inl rfl))]
  · rw [monthRecords_type_filter records month year AttendanceType.leave
      (Or.inr (Or.inr rfl))]
  · intro rec h1 h2 h3 h4
    constructor
    · rw [monthRecords_type_filter (rec :: records) month year
          AttendanceType.office (Or.inl rfl),
        monthRecords_type_filter records month year AttendanceType.office
          (Or.inl rfl),
        List.filter_cons_of_pos (by simp [h1, h2, h3])]
      rfl
    · unfold getWorkingDaysInMonth
      have h := workingDaysList_insert_weekend rec [] records month year
        holidays settings h4
      simpa using congrArg List.length h

/-- C10 witness: an office record on Saturday 6 January 2024 increments
`daysInOffice` and leaves `totalWorkingDays` unchanged. -/
theorem C10_witness :
    (calculateMonthlyReport (⟨⟨2024, 1, 6⟩, AttendanceType.office, none⟩ :: [])
        1 2024 mockHolidays defaultSettings ⟨2024, 1, 31⟩).daysInOffice =
      (calculateMonthlyReport [] 1 2024 mockHolidays defaultSettings
        ⟨2024, 1, 31⟩).daysInOffice + 1 ∧
    (calculateMonthlyReport (⟨⟨2024, 1, 6⟩, AttendanceType.office, none⟩ :: [])
        1 2024 mockHolidays defaultSettings ⟨2024, 1, 31⟩).totalWorkingDays =
      (calculateMonthlyReport [] 1 2024 mockHolidays defaultSettings
        ⟨2024, 1, 31⟩).totalWorkingDays :=
  (C10_tallies_ignore_working_day_status [] 1 2024 mockHolidays defaultSettings
    ⟨2024, 1, 31⟩ _ rfl).2.2.2 ⟨⟨2024, 1, 6⟩, AttendanceType.office, none⟩
    rfl rfl rfl (by decide)

end RTO
